import Mathlib

/-!
A shallow embedding of the xiaohongshu-mcp-python repository's core logic:
the cookie store (`browser/cookies.py`), the session manager's scoped page
lifecycle (`browser/driver.py`), the login-state detection chain
(`xiaohongshu/login.py`), the publish pipeline (`xiaohongshu/publish.py`)
and the CLI argument validation (`publish.py`).

Browser-engine calls (playwright) and filesystem/JSON I/O are the spec's
out-of-scope external collaborators; they are modelled as oracles recorded
in environment structures: each call's outcome (a value, or the exception
it raises) is a field read by the embedded control flow.  The Python
exception discipline (try/except/finally) is translated to explicit
`Except` values and to the exact skip/replace behaviour of `finally`
blocks.  All definitions are computable so concrete runs evaluate by
`decide`/`rfl`.
-/

namespace XhsMcp

/-! ## Cookie store: `src/xiaohongshu_mcp/browser/cookies.py` -/

/-- A cookie record as the browser engine's cookie API hands it over:
the spec's data model treats it as an opaque name/value/attribute map,
so a concrete record with the identifying fields suffices. -/
structure CookieRec where
  name : String
  value : String
  domain : String
  path : String
deriving DecidableEq, Repr

/-- The state of the on-disk cookie file, at the granularity the code
observes it: absent, unreadable (`open`/read raises), holding bytes that
`json.load` rejects, or holding a JSON document that decodes to a cookie
list.  JSON (de)serialization itself is the out-of-scope external
collaborator (spec section 1), so the stored state is the decoded value. -/
inductive CookieFile where
  | absent
  | unreadable
  | corrupt
  | stored (cookies : List CookieRec)
deriving DecidableEq, Repr

/-- `CookieManager.save_cookies` (cookies.py lines 23-31): writes the list
as JSON; on a write failure it logs the error and then RE-RAISES it
(the bare `raise` on line 31).  `writeFails` is the I/O oracle. -/
def save_cookies (writeFails : Bool) (cookies : List CookieRec) (d : CookieFile) :
    CookieFile × Except String Unit :=
  if writeFails then (d, Except.error "保存cookies失败")
  else (CookieFile.stored cookies, Except.ok ())

/-- The try-block body of `CookieManager.load_cookies` (cookies.py lines
35-44): an absent file returns `[]` directly; reading an unreadable file or
decoding a corrupt one raises. -/
def load_cookies_body (d : CookieFile) : Except String (List CookieRec) :=
  match d with
  | CookieFile.absent => Except.ok []
  | CookieFile.unreadable => Except.error "读取失败"
  | CookieFile.corrupt => Except.error "JSON解析失败"
  | CookieFile.stored cs => Except.ok cs

/-- `CookieManager.load_cookies` (cookies.py lines 33-47): the whole body
is wrapped in try/except; any exception is logged and `[]` is returned. -/
def load_cookies (d : CookieFile) : List CookieRec :=
  match load_cookies_body d with
  | Except.ok cs => cs
  | Except.error _ => []

/-! ## Session manager: `src/xiaohongshu_mcp/browser/driver.py` -/

/-- Teardown events of `BrowserManager.get_page`, in the order the calls
are issued: the `save_cookies` call, `page.close()`, `context.close()`,
`browser.close()`. -/
inductive TEv where
  | saveCookies
  | pageClose
  | contextClose
  | browserClose
deriving DecidableEq, Repr

/-- The oracle for one run of the `get_page` scope: what the caller's body
does, what `context.cookies()` returns at exit, and which teardown calls
raise (the raised message, or `none` for success). -/
structure SessionEnv where
  bodyErr : Option String
  contextCookies : List CookieRec
  saveWriteFails : Bool
  pageCloseErr : Option String
  contextCloseErr : Option String
  browserCloseErr : Option String
deriving Repr

/-- The observable outcome of leaving the `get_page` scope: the exception
that propagates to the caller (`none` = normal exit), the teardown calls
that were issued, and the final cookie-file state. -/
structure SessionOut where
  outcome : Option String
  events : List TEv
  disk : CookieFile
deriving DecidableEq, Repr

/-- The close chain of the inner `finally` (driver.py lines 64-65) followed
by the outer `finally` (line 67), with Python semantics: a statement that
raises inside a `finally` skips the rest of that block and replaces the
pending exception; the outer `finally` always still runs. -/
def close_chain (env : SessionEnv) (d1 : CookieFile) (evs : List TEv) : SessionOut :=
  match env.pageCloseErr with
  | some ep =>
      { outcome := some (env.browserCloseErr.getD ep)
        events := evs ++ [TEv.pageClose, TEv.browserClose]
        disk := d1 }
  | none =>
    match env.contextCloseErr with
    | some ec =>
        { outcome := some (env.browserCloseErr.getD ec)
          events := evs ++ [TEv.pageClose, TEv.contextClose, TEv.browserClose]
          disk := d1 }
    | none =>
        { outcome :=
            match env.browserCloseErr with
            | some eb => some eb
            | none => env.bodyErr
          events := evs ++ [TEv.pageClose, TEv.contextClose, TEv.browserClose]
          disk := d1 }

/-- The exit path of `BrowserManager.get_page` (driver.py lines 56-67):
the inner `finally` reads `context.cookies()`, saves them when non-empty
(the unguarded `save_cookies` call on line 62 — if it raises, `page.close`
and `context.close` on lines 64-65 are skipped and the exception replaces
the caller's), then the close chain; the outer `finally` closes the
browser in every case. -/
def get_page_run (env : SessionEnv) (d : CookieFile) : SessionOut :=
  if env.contextCookies.isEmpty then
    close_chain env d []
  else
    match save_cookies env.saveWriteFails env.contextCookies d with
    | (d1, Except.ok _) => close_chain env d1 [TEv.saveCookies]
    | (d1, Except.error e) =>
        { outcome := some (env.browserCloseErr.getD e)
          events := [TEv.saveCookies, TEv.browserClose]
          disk := d1 }

/-- `BrowserManager.save_current_cookies` (driver.py lines 69-75): reads the
context cookies and writes them only when non-empty.  Returns the new disk
state, the call's outcome, and whether a save was attempted at all. -/
def save_current_cookies (writeFails : Bool) (cookies : List CookieRec) (d : CookieFile) :
    CookieFile × Except String Unit × Bool :=
  if cookies.isEmpty then (d, Except.ok (), false)
  else
    match save_cookies writeFails cookies d with
    | (d1, r) => (d1, r, true)

/-! ## String helpers: Python's `in` on strings and pathlib's `suffix` -/

/-- Whether `pat` is a leading run of `cs` (character-wise). -/
def listStartsWith : List Char → List Char → Bool
  | [], _ => true
  | _ :: _, [] => false
  | p :: ps, c :: cs => p == c && listStartsWith ps cs

/-- Whether `pat` occurs contiguously anywhere in the list. -/
def listHasSub (pat : List Char) : List Char → Bool
  | [] => pat.isEmpty
  | c :: rest => listStartsWith pat (c :: rest) || listHasSub pat rest

/-- Python's `pat in s` for strings: contiguous-substring containment. -/
def strContains (s pat : String) : Bool :=
  listHasSub pat.toList s.toList

/-- Split a character list at every occurrence of `sep` (like Python
`str.split(sep)` for a one-character separator): always at least one
group, empty groups kept. -/
def splitChars (sep : Char) : List Char → List (List Char)
  | [] => [[]]
  | c :: rest =>
    let r := splitChars sep rest
    if c = sep then [] :: r
    else
      match r with
      | [] => [[c]]
      | g :: gs => (c :: g) :: gs

/-- String splitting on a one-character separator, structurally (so that
concrete instances evaluate in the kernel). -/
def pySplitOn (s : String) (sep : Char) : List String :=
  (splitChars sep s.toList).map String.mk

/-- Python `str.strip()`: drop whitespace from both ends. -/
def pyStrip (s : String) : String :=
  String.mk
    (((s.toList.dropWhile Char.isWhitespace).reverse.dropWhile
        Char.isWhitespace).reverse)

/-- Python `str.lower()`, character-wise. -/
def pyLower (s : String) : String :=
  String.mk (s.toList.map Char.toLower)

/-- The final component of a posix path, as `pathlib.Path(p).name`:
the last slash-separated component, with empty and `.` components
normalized away. -/
def pathName (p : String) : String :=
  ((pySplitOn p '/').filter (fun s => !(s == "") && !(s == "."))).getLastD ""

/-- Python `pathlib.Path(p).suffix`: the extension of the final component,
i.e. `name[i:]` for `i = name.rfind(".")`, provided `0 < i < len(name)-1`,
else the empty string. -/
def pathSuffix (p : String) : String :=
  let nm := pathName p
  let parts := pySplitOn nm '.'
  match parts with
  | [] => ""
  | [_] => ""
  | _ =>
    let ext := parts.getLastD ""
    let stem := String.intercalate "." parts.dropLast
    if ext = "" ∨ stem = "" then "" else "." ++ ext

/-! ## Filesystem oracle -/

/-- The filesystem facts the validators consult: `Path(p).exists()` and
`Path(p).is_file()`. -/
structure FS where
  pathExists : String → Bool
  isFile : String → Bool

/-! ## CLI argument validation: `src/xiaohongshu_mcp/publish.py` -/

/-- The supported image extensions (publish.py line 163). -/
def supported_suffixes : List String :=
  [".jpg", ".jpeg", ".png", ".gif", ".webp"]

/-- `validate_args` (publish.py lines 129-168): rejects an
empty-after-strip title, a title longer than 40 characters, an
empty-after-strip content, an empty image list, and any image path that
does not exist, is not a regular file, or whose lower-cased suffix is
unsupported; accepts everything else. -/
def validate_args (fs : FS) (title content : String) (images : List String) : Bool :=
  if pyStrip title = "" then false
  else if title.length > 40 then false
  else if pyStrip content = "" then false
  else if images.isEmpty then false
  else images.all (fun image_path =>
    fs.pathExists image_path && fs.isFile image_path &&
      supported_suffixes.contains (pyLower (pathSuffix image_path)))

/-- How `main_async` (publish.py lines 69-89) leaves the validation gate:
`sys.exit(1)` on validation failure, an early return in `--dry-run` mode,
and only otherwise the construction of a `BrowserManager` and the
`get_page` scope. -/
inductive CliGate where
  | exitedEarly (code : Nat)
  | validatedOnly
  | proceededToBrowser
deriving DecidableEq, Repr

/-- The validation prefix of `main_async` (publish.py lines 69-89): the
first browser interaction (line 83 onwards) is reached only when
`validate_args` passed and `--dry-run` is off. -/
def main_async_gate (fs : FS) (title content : String) (images : List String)
    (dryRun : Bool) : CliGate :=
  if !(validate_args fs title content images) then CliGate.exitedEarly 1
  else if dryRun then CliGate.validatedOnly
  else CliGate.proceededToBrowser

/-! ## Login-state detection: `src/xiaohongshu_mcp/xiaohongshu/login.py` -/

/-- Result of one `page.query_selector(css)` call: an element was found,
`None` came back, or the call raised. -/
inductive QRes where
  | found
  | notFound
  | raised (msg : String)
deriving DecidableEq, Repr

/-- The page oracle the detection chain consults: per-selector
`query_selector` outcomes, the `page.content()` outcome, and the
`page.url` read outcome. -/
structure LoginPage where
  query : String → QRes
  content : Except String String
  url : Except String String

/-- The primary authenticated-indicator selector (login.py line 15). -/
def login_indicator : String :=
  ".main-container .user .link-wrapper .channel"

/-- The secondary user/avatar selectors (login.py lines 56-62), in order. -/
def user_indicators : List String :=
  [".user-avatar", "[class*=\x27user\x27]", "[class*=\x27avatar\x27]",
   ".header-user", "[data-testid*=\x27user\x27]"]

/-- The authenticated-only page-content keywords (login.py line 76). -/
def login_keywords : List String :=
  ["个人主页", "我的", "设置", "退出登录", "发布", "创作中心"]

/-- `XiaohongshuLogin._check_login_with_multiple_methods` (login.py lines
43-92): four heuristics in fixed order, the first match returning.
Method 1 returns true when the primary selector finds an element (a raise
is logged and falls through); method 2 returns true on the first user
indicator found (raises and misses both continue); method 3 returns true
when the page content holds any keyword (a raise falls through); method 4
returns false when the URL contains login/signin; the exhausted chain
returns false. -/
def check_login_with_multiple_methods (page : LoginPage) : Bool :=
  if page.query login_indicator = QRes.found then true
  else if user_indicators.any (fun ind => page.query ind = QRes.found) then true
  else if (match page.content with
           | Except.ok c => login_keywords.any (fun k => strContains c k)
           | Except.error _ => false) then true
  else
    match page.url with
    | Except.ok u =>
        if strContains (pyLower u) "login" || strContains (pyLower u) "signin" then false
        else false
    | Except.error _ => false

/-- The oracle for one `check_login_status` run: whether `page.goto` and
`wait_for_load_state` raise, and the page state the probes then see. -/
structure LoginEnv where
  gotoErr : Option String
  loadStateErr : Option String
  page : LoginPage

/-- `XiaohongshuLogin.check_login_status` (login.py lines 17-41): the whole
body is wrapped in try/except returning false, so a raise during
navigation (or load-state wait) yields false without propagating;
otherwise the detection chain decides. -/
def check_login_status (env : LoginEnv) : Bool :=
  match env.gotoErr with
  | some _ => false
  | none =>
    match env.loadStateErr with
    | some _ => false
    | none => check_login_with_multiple_methods env.page

/-! ## Publish flow: `src/xiaohongshu_mcp/xiaohongshu/publish.py` -/

/-- A playwright exception, by the class the `except` clauses match on:
`PlaywrightTimeoutError` or any other `Exception`. -/
inductive PyExc where
  | timeoutErr (msg : String)
  | otherErr (msg : String)
deriving DecidableEq, Repr

/-- The exceptions the publish pipeline can propagate to
`publish_content`'s outer `except`: raw engine exceptions, and each
`raise Exception(...)` site of publish.py with its wrapping structure.
The constructors carry the wrapped inner error where the Python code
interpolates `{e}` into the message. -/
inductive PErr where
  | engine (e : PyExc)
  | uploadContentTimeout
  | uploadInputTimeout
  | uploadFailed (inner : PErr)
  | titleSelectorsNotFound
  | fillTitleFailed (inner : PErr)
  | descriptionBoxNotFound
  | fillDescriptionFailed (inner : PErr)
  | fillContentFailed (inner : PErr)
  | submitTimeout
  | submitFailed (inner : PErr)
deriving DecidableEq, Repr

/-- The page interactions the pipeline issues, in order: navigation, the
content-type tab click, `set_input_files`, the title fill, the
description fill, and the submit click. -/
inductive PEv where
  | gotoPublishPage
  | clickTab
  | setInputFiles (paths : List String)
  | fillTitle (text : String)
  | fillDescription (text : String)
  | clickSubmit
deriving DecidableEq, Repr

/-- One probe of `div.creator-tab` elements in `_click_upload_tab`'s text
fallback (publish.py lines 124-148): `text_content` timed out, raised, or
returned (possibly `None`); and whether clicking the matched element
raises. -/
inductive TabProbe where
  | textTimeout
  | textFailed (msg : String)
  | textOk (t : Option String) (clickRaises : Bool)
deriving Repr

/-- The page facts one iteration of `_wait_for_upload_complete` observes:
each edit-indicator `query_selector` outcome (guarded by the bare except
on publish.py line 207), and the secondary-signal read — the
`query_selector_all("input")` call plus the per-element
`get_attribute("type")` reads (publish.py lines 211-215), which are NOT
inside any try/except: `inputsRead` is the list of `type` attributes when
every one of those calls returns, or the exception the first failing call
raises. -/
structure IterState where
  indicator : String → QRes
  inputsRead : Except PyExc (List (Option String))

/-- The oracle for one `publish_content` run: the filesystem, and the
outcome of every browser-engine call the pipeline makes, stage by stage.
The debug-only reads (`page.url`, `page.title()`, the input enumeration
of `_fill_title`) and the placeholder ancestor walk of
`_find_textbox_by_placeholder` are modelled as non-failing oracles since
no control flow beyond found/not-found depends on them. -/
structure PublishEnv where
  fs : FS
  gotoRes : Option PyExc
  loadStateRes : Option PyExc
  uploadContentWait : Except PyExc Unit
  tabQuery : String → QRes
  tabClickRaises : String → Bool
  tabTexts : List TabProbe
  uploadInputWait : Except PyExc Unit
  setFilesRes : Option PyExc
  iters : Nat → IterState
  titleWait : String → Except PyExc Unit
  titleFillRes : Option PyExc
  qlEditorFound : Bool
  placeholderBoxFound : Bool
  textareaFound : Bool
  descriptionFillRes : Option PyExc
  submitWait : Except PyExc Unit
  submitClickRes : Option PyExc

/-- `XiaohongshuPublish._validate_images` (publish.py lines 56-72): the
list must be non-empty and every path must exist and be a regular file.
Unlike the CLI `validate_args`, no extension check is made here. -/
def validate_images (fs : FS) (image_paths : List String) : Bool :=
  if image_paths.isEmpty then false
  else image_paths.all (fun p => fs.pathExists p && fs.isFile p)

/-- The specific tab selectors of `_click_upload_tab` (publish.py lines
106-110). -/
def specific_selectors : List String :=
  ["[data-value=\x27image\x27]", "[class*=\x27image\x27]",
   "div.creator-tab:nth-child(2)"]

/-- Method 1 of `_click_upload_tab` (publish.py lines 112-121): the first
selector whose `query_selector` finds an element and whose click does not
raise; a raise anywhere in an iteration just continues. -/
def firstTabSelectorHit (env : PublishEnv) : List String → Option String
  | [] => none
  | sel :: rest =>
    match env.tabQuery sel with
    | QRes.found =>
        if env.tabClickRaises sel then firstTabSelectorHit env rest else some sel
    | _ => firstTabSelectorHit env rest

/-- Method 2 of `_click_upload_tab` (publish.py lines 124-148): scan the
tab elements; a text timeout or error continues; the first element whose
text contains 上传图文 and whose click does not raise wins. -/
def firstTabTextHit : List TabProbe → Bool
  | [] => false
  | TabProbe.textOk (some t) clickRaises :: rest =>
      if strContains t "上传图文" && !clickRaises then true
      else firstTabTextHit rest
  | _ :: rest => firstTabTextHit rest

/-- `XiaohongshuPublish._click_upload_tab` (publish.py lines 100-153):
both methods are best-effort; failing to find any tab (and even an
exception, caught on line 152) is non-fatal.  Only the events are
observable. -/
def click_upload_tab (env : PublishEnv) : List PEv :=
  match firstTabSelectorHit env specific_selectors with
  | some _ => [PEv.clickTab]
  | none => if firstTabTextHit env.tabTexts then [PEv.clickTab] else []

/-- `XiaohongshuPublish._navigate_to_publish_page` (publish.py lines
74-97): `page.goto` (60s) and the load-state wait propagate raw; the
15s wait for `div.upload-content` converts a timeout into the dedicated
exception (line 88) while any other exception propagates raw; then the
non-fatal tab click. -/
def navigate_to_publish_page (env : PublishEnv) : List PEv × Except PErr Unit :=
  match env.gotoRes with
  | some e => ([], Except.error (PErr.engine e))
  | none =>
    match env.loadStateRes with
    | some e => ([PEv.gotoPublishPage], Except.error (PErr.engine e))
    | none =>
      match env.uploadContentWait with
      | Except.error (PyExc.timeoutErr _) =>
          ([PEv.gotoPublishPage], Except.error PErr.uploadContentTimeout)
      | Except.error e => ([PEv.gotoPublishPage], Except.error (PErr.engine e))
      | Except.ok _ =>
          (PEv.gotoPublishPage :: click_upload_tab env, Except.ok ())

/-- The edit-interface indicators of `_wait_for_upload_complete`
(publish.py lines 185-194). -/
def edit_indicators : List String :=
  ["div.d-input input", ".d-input input", "input[placeholder*=\x27标题\x27]",
   "textarea", ".ql-editor", "[contenteditable=\x27true\x27]",
   ".publish-form", ".edit-content"]

/-- Whether some edit indicator's `query_selector` found an element in the
given iteration (publish.py lines 200-208; a raise continues). -/
def iterIndicatorHit (st : IterState) : Bool :=
  edit_indicators.any (fun ind => st.indicator ind = QRes.found)

/-- The secondary readiness signal (publish.py lines 212-216) over the
successfully read `type` attributes: every input element with a truthy
`type` attribute has `type == "file"`; vacuously true when no input has a
truthy type. -/
def fileInputsOnly (types : List (Option String)) : Bool :=
  ((types.filterMap id).filter (fun t => !(t == ""))).all
    (fun t => t == "file")

/-- The polling loop of `_wait_for_upload_complete` (publish.py lines
197-222), counted by iterations entered: an indicator hit returns, then
the unguarded secondary-signal reads run — a raise there propagates out
of the loop — a non-file-only input set breaks, otherwise the next of at
most 15 iterations runs. -/
def waitLoop (env : PublishEnv) : Nat → Nat → Except PyExc Nat
  | 0, used => Except.ok used
  | fuel + 1, used =>
    let st := env.iters used
    if iterIndicatorHit st then Except.ok (used + 1)
    else
      match st.inputsRead with
      | Except.error e => Except.error e
      | Except.ok types =>
        if !(fileInputsOnly types) then Except.ok (used + 1)
        else waitLoop env fuel (used + 1)

/-- `XiaohongshuPublish._wait_for_upload_complete` (publish.py lines
177-224): up to 15 poll iterations; an indicator hit, a break and an
exhausted loop all fall through to the final log line and return normally
(the ok value is how many iterations ran), while a raise from the
unguarded `query_selector_all`/`get_attribute` reads on lines 211-215
propagates to the caller. -/
def wait_for_upload_complete (env : PublishEnv) : Except PyExc Nat :=
  waitLoop env 15 0

/-- `XiaohongshuPublish._upload_images` (publish.py lines 155-175): inside
one try block, the 10s wait for `.upload-input`, `set_input_files`, and
the completion wait; a `PlaywrightTimeoutError` escaping the block
becomes the dedicated timeout exception (line 173), any other exception
is wrapped (line 175) — including a raise out of
`_wait_for_upload_complete`'s unguarded secondary-signal reads. -/
def upload_images (env : PublishEnv) (image_paths : List String) :
    List PEv × Except PErr Unit :=
  match env.uploadInputWait with
  | Except.error (PyExc.timeoutErr _) => ([], Except.error PErr.uploadInputTimeout)
  | Except.error e => ([], Except.error (PErr.uploadFailed (PErr.engine e)))
  | Except.ok _ =>
    match env.setFilesRes with
    | some (PyExc.timeoutErr _) => ([], Except.error PErr.uploadInputTimeout)
    | some e => ([], Except.error (PErr.uploadFailed (PErr.engine e)))
    | none =>
      match wait_for_upload_complete env with
      | Except.error (PyExc.timeoutErr _) =>
          ([PEv.setInputFiles image_paths], Except.error PErr.uploadInputTimeout)
      | Except.error e =>
          ([PEv.setInputFiles image_paths],
            Except.error (PErr.uploadFailed (PErr.engine e)))
      | Except.ok _ => ([PEv.setInputFiles image_paths], Except.ok ())

/-- The title selector candidates of `_fill_title` (publish.py lines
250-259), in order. -/
def title_selectors : List String :=
  ["div.d-input input", ".d-input input", "input[placeholder*=\x27标题\x27]",
   "input[placeholder*=\x27title\x27]", ".title-input",
   "[class*=\x27title\x27] input", "textarea[placeholder*=\x27标题\x27]",
   "input[type=\x27text\x27]"]

/-- The selector loop of `_fill_title` (publish.py lines 262-271): a 3s
wait per candidate; a timeout continues with the next candidate, any
other exception escapes the loop. -/
def firstTitleHit (env : PublishEnv) : List String → Except PyExc (Option String)
  | [] => Except.ok none
  | sel :: rest =>
    match env.titleWait sel with
    | Except.ok _ => Except.ok (some sel)
    | Except.error (PyExc.timeoutErr _) => firstTitleHit env rest
    | Except.error e => Except.error e

/-- `XiaohongshuPublish._fill_title` (publish.py lines 240-298): when no
candidate matches, the inputs are enumerated for diagnostics and the
dedicated exception raised (line 288); every exception of the body is
wrapped by the outer except (line 298). -/
def fill_title (env : PublishEnv) (title : String) : List PEv × Except PErr Unit :=
  match firstTitleHit env title_selectors with
  | Except.error e => ([], Except.error (PErr.fillTitleFailed (PErr.engine e)))
  | Except.ok none => ([], Except.error (PErr.fillTitleFailed PErr.titleSelectorsNotFound))
  | Except.ok (some _) =>
    match env.titleFillRes with
    | some e => ([], Except.error (PErr.fillTitleFailed (PErr.engine e)))
    | none => ([PEv.fillTitle title], Except.ok ())

/-- Which way `_find_content_element` (publish.py lines 317-352) found the
description box. -/
inductive ContentBox where
  | qlEditor
  | placeholderBox
  | textareaBox
deriving DecidableEq, Repr

/-- `_find_content_element`: the `div.ql-editor` wait, the placeholder
ancestor search, then a generic `textarea` wait; each probe's exceptions
are swallowed (the bare excepts on lines 326, 335, 344) so only
found/not-found matters. -/
def find_content_element (env : PublishEnv) : Option ContentBox :=
  if env.qlEditorFound then some ContentBox.qlEditor
  else if env.placeholderBoxFound then some ContentBox.placeholderBox
  else if env.textareaFound then some ContentBox.textareaBox
  else none

/-- `XiaohongshuPublish._fill_description` (publish.py lines 300-315):
fill the found box (a raise is wrapped on line 315), or raise the
dedicated exception when no box was found (line 312, wrapped likewise). -/
def fill_description (env : PublishEnv) (content : String) :
    List PEv × Except PErr Unit :=
  match find_content_element env with
  | some _ =>
    match env.descriptionFillRes with
    | some e => ([], Except.error (PErr.fillDescriptionFailed (PErr.engine e)))
    | none => ([PEv.fillDescription content], Except.ok ())
  | none => ([], Except.error (PErr.fillDescriptionFailed PErr.descriptionBoxNotFound))

/-- `XiaohongshuPublish._fill_content` (publish.py lines 226-238): title
then description; any exception is wrapped once more (line 238). -/
def fill_content (env : PublishEnv) (title content : String) :
    List PEv × Except PErr Unit :=
  match fill_title env title with
  | (evs, Except.error e) => (evs, Except.error (PErr.fillContentFailed e))
  | (evs, Except.ok _) =>
    match fill_description env content with
    | (evs2, Except.error e) => (evs ++ evs2, Except.error (PErr.fillContentFailed e))
    | (evs2, Except.ok _) => (evs ++ evs2, Except.ok ())

/-- `XiaohongshuPublish._submit_publish` (publish.py lines 381-407): a 10s
wait for the submit button and the click; a `PlaywrightTimeoutError`
becomes the dedicated timeout exception (line 405), anything else is
wrapped (line 407). -/
def submit_publish (env : PublishEnv) : List PEv × Except PErr Unit :=
  match env.submitWait with
  | Except.error (PyExc.timeoutErr _) => ([], Except.error PErr.submitTimeout)
  | Except.error e => ([], Except.error (PErr.submitFailed (PErr.engine e)))
  | Except.ok _ =>
    match env.submitClickRes with
    | some (PyExc.timeoutErr _) => ([], Except.error PErr.submitTimeout)
    | some e => ([], Except.error (PErr.submitFailed (PErr.engine e)))
    | none => ([PEv.clickSubmit], Except.ok ())

/-- The observable outcome of one `publish_content` call: the returned
boolean, the page interactions issued, and the exception the outer
`except` caught and logged (if any). -/
structure PublishOut where
  ok : Bool
  events : List PEv
  err : Option PErr
deriving DecidableEq, Repr

/-- `XiaohongshuPublish.publish_content` (publish.py lines 18-54): local
image validation, then the four browser stages in order; the whole body
sits in a try whose except logs the exception and returns `False`, and
`True` is returned only after every stage completed. -/
def publish_content (env : PublishEnv) (title content : String)
    (image_paths : List String) : PublishOut :=
  if !(validate_images env.fs image_paths) then ⟨false, [], none⟩
  else
    match navigate_to_publish_page env with
    | (evs, Except.error e) => ⟨false, evs, some e⟩
    | (evs, Except.ok _) =>
      match upload_images env image_paths with
      | (evs2, Except.error e) => ⟨false, evs ++ evs2, some e⟩
      | (evs2, Except.ok _) =>
        match fill_content env title content with
        | (evs3, Except.error e) => ⟨false, evs ++ evs2 ++ evs3, some e⟩
        | (evs3, Except.ok _) =>
          match submit_publish env with
          | (evs4, Except.error e) => ⟨false, evs ++ evs2 ++ evs3 ++ evs4, some e⟩
          | (evs4, Except.ok _) => ⟨true, evs ++ evs2 ++ evs3 ++ evs4, none⟩

/-- Whether an exception is one of the two `_upload_images` raise sites:
the reported failure identifies the upload stage. -/
def isUploadStageErr : PErr → Bool
  | PErr.uploadInputTimeout => true
  | PErr.uploadFailed _ => true
  | _ => false

/-- Whether an exception came from the field-fill or submit stage. -/
def isFillOrSubmitErr : PErr → Bool
  | PErr.fillContentFailed _ => true
  | PErr.submitTimeout => true
  | PErr.submitFailed _ => true
  | _ => false

/-! ## Concrete fixtures for witnesses and counterexamples -/

/-- A representative cookie record. -/
def demoCookie : CookieRec :=
  { name := "web_session", value := "abc123", domain := ".xiaohongshu.com", path := "/" }

/-- A session run whose body raises, whose context holds one cookie, and
whose cookie write fails — the fault injection of C1. -/
def c1Env : SessionEnv :=
  { bodyErr := some "caller failure"
    contextCookies := [demoCookie]
    saveWriteFails := true
    pageCloseErr := none
    contextCloseErr := none
    browserCloseErr := none }

/-- A session run whose context holds no cookies. -/
def c10Env : SessionEnv :=
  { bodyErr := none
    contextCookies := []
    saveWriteFails := false
    pageCloseErr := none
    contextCloseErr := none
    browserCloseErr := none }

/-- A filesystem with three regular files. -/
def demoFS : FS :=
  { pathExists := fun p => p == "photo.png" || p == "b.jpg" || p == "x.bmp"
    isFile := fun p => p == "photo.png" || p == "b.jpg" || p == "x.bmp" }

/-- A title of exactly 40 characters. -/
def title40 : String := String.mk (List.replicate 40 't')

/-- A title of exactly 41 characters. -/
def title41 : String := String.mk (List.replicate 41 't')

/-- An upload-stage page state with no inputs, no edit indicators, and
successfully returning input reads. -/
def okIter : IterState :=
  { indicator := fun _ => QRes.notFound, inputsRead := Except.ok [] }

/-- A publish run where navigation succeeds but the `.upload-input`
selector never appears within its 10-second bound. -/
def pubEnvUploadTimeout : PublishEnv :=
  { fs := demoFS
    gotoRes := none
    loadStateRes := none
    uploadContentWait := Except.ok ()
    tabQuery := fun _ => QRes.notFound
    tabClickRaises := fun _ => false
    tabTexts := []
    uploadInputWait := Except.error (PyExc.timeoutErr "Timeout 10000ms exceeded")
    setFilesRes := none
    iters := fun _ => okIter
    titleWait := fun _ => Except.ok ()
    titleFillRes := none
    qlEditorFound := true
    placeholderBoxFound := false
    textareaFound := false
    descriptionFillRes := none
    submitWait := Except.ok ()
    submitClickRes := none }

/-! ## Helper lemmas -/

/-- The tab-click stage emits at most one click and nothing else. -/
theorem click_upload_tab_shape (env : PublishEnv) :
    click_upload_tab env = [PEv.clickTab] ∨ click_upload_tab env = [] := by
  unfold click_upload_tab
  cases firstTabSelectorHit env specific_selectors with
  | some s => exact Or.inl rfl
  | none =>
    by_cases h : firstTabTextHit env.tabTexts = true
    · rw [if_pos h]; exact Or.inl rfl
    · rw [if_neg h]; exact Or.inr rfl

/-- Every event the navigation stage emits is the page load or the tab
click — never a field fill or a submit click. -/
theorem navigate_events_shape (env : PublishEnv) :
    ∀ ev ∈ (navigate_to_publish_page env).1,
      ev = PEv.gotoPublishPage ∨ ev = PEv.clickTab := by
  intro ev hev
  cases hg : env.gotoRes with
  | some e => simp [navigate_to_publish_page, hg] at hev
  | none =>
    cases hl : env.loadStateRes with
    | some e =>
      simp [navigate_to_publish_page, hg, hl] at hev
      exact Or.inl hev
    | none =>
      cases hw : env.uploadContentWait with
      | error e =>
        cases e <;>
          (simp [navigate_to_publish_page, hg, hl, hw] at hev; exact Or.inl hev)
      | ok u =>
        simp [navigate_to_publish_page, hg, hl, hw] at hev
        rcases hev with hev | hev
        · exact Or.inl hev
        · rcases click_upload_tab_shape env with hc | hc
          · rw [hc] at hev; simp at hev; exact Or.inr hev
          · rw [hc] at hev; simp at hev

/-- An exception escaping `_fill_content` always carries the fill-stage
wrapper added on publish.py line 238. -/
theorem fill_content_err_shape (env : PublishEnv) (t c : String) (e : PErr)
    (h : (fill_content env t c).2 = Except.error e) :
    ∃ i, e = PErr.fillContentFailed i := by
  unfold fill_content at h
  rcases hft : fill_title env t with ⟨evs, r⟩
  rw [hft] at h
  cases r with
  | error e1 =>
    simp at h
    exact ⟨e1, h.symm⟩
  | ok u =>
    rcases hfd : fill_description env c with ⟨evs2, r2⟩
    rw [hfd] at h
    cases r2 with
    | error e2 =>
      simp at h
      exact ⟨e2, h.symm⟩
    | ok u2 => simp at h

/-- An exception escaping `_submit_publish` is one of its two raise
sites. -/
theorem submit_err_shape (env : PublishEnv) (e : PErr)
    (h : (submit_publish env).2 = Except.error e) :
    e = PErr.submitTimeout ∨ ∃ i, e = PErr.submitFailed i := by
  unfold submit_publish at h
  cases hw : env.submitWait with
  | error e1 =>
    rw [hw] at h
    cases e1 <;> (simp at h; first | exact Or.inl h.symm | exact Or.inr ⟨_, h.symm⟩)
  | ok u =>
    rw [hw] at h
    cases hc : env.submitClickRes with
    | some e2 =>
      rw [hc] at h
      cases e2 <;> (simp at h; first | exact Or.inl h.symm | exact Or.inr ⟨_, h.symm⟩)
    | none => rw [hc] at h; simp at h

/-- When the poll loop returns normally, it ran at most `fuel` more
iterations. -/
theorem waitLoop_le (env : PublishEnv) :
    ∀ (fuel used n : Nat), waitLoop env fuel used = Except.ok n →
      n ≤ used + fuel := by
  intro fuel
  induction fuel with
  | zero =>
    intro used n h
    simp [waitLoop] at h
    omega
  | succ k ih =>
    intro used n h
    unfold waitLoop at h
    by_cases h1 : iterIndicatorHit (env.iters used) = true
    · rw [if_pos h1] at h
      simp at h
      omega
    · rw [if_neg h1] at h
      cases hr : (env.iters used).inputsRead with
      | error e => rw [hr] at h; simp at h
      | ok types =>
        rw [hr] at h
        cases h2 : fileInputsOnly types with
        | false => simp [h2] at h; omega
        | true =>
          simp [h2] at h
          have := ih (used + 1) n h
          omega

/-- When no iteration ever matches, every secondary-signal read succeeds
and the inputs stay file-only, the poll loop consumes all its fuel and
returns normally. -/
theorem waitLoop_exhausts (env : PublishEnv)
    (hq : ∀ i, iterIndicatorHit (env.iters i) = false ∧
               ∃ types, (env.iters i).inputsRead = Except.ok types ∧
                 fileInputsOnly types = true) :
    ∀ (fuel used : Nat), waitLoop env fuel used = Except.ok (used + fuel) := by
  intro fuel
  induction fuel with
  | zero => intro used; simp [waitLoop]
  | succ k ih =>
    intro used
    obtain ⟨h1, types, hr, h2⟩ := hq used
    unfold waitLoop
    rw [if_neg (by simp [h1]), hr]
    have harith : used + 1 + k = used + (k + 1) := by omega
    simp [h2, ih (used + 1), harith]

/-! ## Claim theorems -/

/-- C1 counterexample: with a non-empty cookie list and a failing cookie
write, the session scope of `BrowserManager.get_page` issues neither
`page.close()` nor `context.close()`, and the save exception propagates
(replacing the caller's own exception "caller failure") — refuting the
claim that a save failure is not re-raised and never prevents the three
close operations. -/
theorem C1_save_failure_counterexample :
    TEv.pageClose ∉ (get_page_run c1Env CookieFile.absent).events ∧
    TEv.contextClose ∉ (get_page_run c1Env CookieFile.absent).events ∧
    TEv.browserClose ∈ (get_page_run c1Env CookieFile.absent).events ∧
    (get_page_run c1Env CookieFile.absent).outcome = some "保存cookies失败" := by
  decide

/-- C1 (amended): on scope exit the context cookies are read and, when
non-empty, saved; when the save does not raise, page close, context close
and browser close are invoked in that order (browser close even when page
close raises, context close only when it does not); an exception raised
while saving cookies is re-raised — it replaces the caller's own
exception and skips page close and context close, though browser close
still runs; when save and all closes succeed the caller's own outcome is
preserved. -/
theorem C1_teardown_amended (env : SessionEnv) (d : CookieFile) :
    (TEv.browserClose ∈ (get_page_run env d).events) ∧
    (env.saveWriteFails = false →
      (get_page_run env d).events =
        (if env.contextCookies.isEmpty then [] else [TEv.saveCookies]) ++
          TEv.pageClose ::
            (if env.pageCloseErr = none then [TEv.contextClose, TEv.browserClose]
             else [TEv.browserClose])) ∧
    (env.saveWriteFails = true → env.contextCookies ≠ [] →
      (get_page_run env d).events = [TEv.saveCookies, TEv.browserClose] ∧
      (get_page_run env d).outcome =
        some (env.browserCloseErr.getD "保存cookies失败")) ∧
    (env.saveWriteFails = false → env.pageCloseErr = none →
      env.contextCloseErr = none → env.browserCloseErr = none →
      (get_page_run env d).outcome = env.bodyErr) := by
  rcases env with ⟨be, cc, swf, pce, cce, bce⟩
  cases swf <;> cases cc <;> cases pce <;> cases cce <;> cases bce <;>
    simp [get_page_run, close_chain, save_cookies]

/-- C5: saving a cookie list via the Cookie Store and loading it back
reproduces the list, whenever the save completed without raising (JSON
encode/decode being the out-of-scope external collaborator, the file is
modelled by its decoded content). -/
theorem C5_save_load_roundtrip (writeFails : Bool) (L : List CookieRec)
    (d : CookieFile) (h : (save_cookies writeFails L d).2 = Except.ok ()) :
    load_cookies (save_cookies writeFails L d).1 = L := by
  cases writeFails with
  | true => simp [save_cookies] at h
  | false => simp [save_cookies, load_cookies, load_cookies_body]

/-- Witness for C5: a concrete successful save followed by a load
reproduces the concrete cookie list. -/
theorem C5_save_load_roundtrip_witness :
    (save_cookies false [demoCookie] CookieFile.absent).2 = Except.ok () ∧
    load_cookies (save_cookies false [demoCookie] CookieFile.absent).1 = [demoCookie] :=
  ⟨rfl, C5_save_load_roundtrip false [demoCookie] CookieFile.absent rfl⟩

/-- C6: `load_cookies` never raises — an absent file yields the empty
list, any read or parse failure yields the empty list, and in every case
the result is either the stored list or the empty list. -/
theorem C6_load_cookies_total :
    (load_cookies CookieFile.absent = []) ∧
    (∀ d e, load_cookies_body d = Except.error e → load_cookies d = []) ∧
    (∀ d, load_cookies d = [] ∨
      ∃ cs, d = CookieFile.stored cs ∧ load_cookies d = cs) := by
  refine ⟨rfl, ?_, ?_⟩
  · intro d e h
    simp [load_cookies, h]
  · intro d
    cases d with
    | stored cs => exact Or.inr ⟨cs, rfl, rfl⟩
    | absent => exact Or.inl rfl
    | unreadable => exact Or.inl rfl
    | corrupt => exact Or.inl rfl

/-- C10: when the context holds no cookies, neither the scope exit of
`get_page` nor `save_current_cookies` attempts a save, and the cookie
file on disk is left unchanged. -/
theorem C10_no_save_when_empty (env : SessionEnv) (d : CookieFile)
    (writeFails : Bool) (h : env.contextCookies = []) :
    TEv.saveCookies ∉ (get_page_run env d).events ∧
    (get_page_run env d).disk = d ∧
    (save_current_cookies writeFails env.contextCookies d).1 = d ∧
    (save_current_cookies writeFails env.contextCookies d).2.2 = false := by
  cases hp : env.pageCloseErr <;> cases hc : env.contextCloseErr <;>
    cases hb : env.browserCloseErr <;>
      simp [get_page_run, close_chain, save_current_cookies, h, hp, hc, hb]

/-- Witness for C10: a concrete empty-cookie session leaves a previously
stored cookie file untouched and never calls save. -/
theorem C10_no_save_when_empty_witness :
    c10Env.contextCookies = [] ∧
    (TEv.saveCookies ∉ (get_page_run c10Env (CookieFile.stored [demoCookie])).events ∧
     (get_page_run c10Env (CookieFile.stored [demoCookie])).disk =
       CookieFile.stored [demoCookie] ∧
     (save_current_cookies false c10Env.contextCookies
        (CookieFile.stored [demoCookie])).1 = CookieFile.stored [demoCookie] ∧
     (save_current_cookies false c10Env.contextCookies
        (CookieFile.stored [demoCookie])).2.2 = false) :=
  ⟨rfl, C10_no_save_when_empty c10Env (CookieFile.stored [demoCookie]) false rfl⟩

/-- Any image failing the per-path check forces `validate_args` to
reject. -/
theorem validate_args_false_of_bad_image (fs : FS) (title content : String)
    (images : List String) (p : String) (hp : p ∈ images)
    (hbad : (fs.pathExists p && fs.isFile p &&
      supported_suffixes.contains (pyLower (pathSuffix p))) = false) :
    validate_args fs title content images = false := by
  unfold validate_args
  by_cases h1 : pyStrip title = ""
  · simp [h1]
  · by_cases h2 : title.length > 40
    · simp [h1, h2]
    · by_cases h3 : pyStrip content = ""
      · simp [h1, h2, h3]
      · by_cases h4 : images.isEmpty
        · simp [h1, h2, h3, h4]
        · simp only [if_neg h1, if_neg h2, if_neg h3, if_neg h4]
          refine Bool.eq_false_iff.mpr ?_
          intro hall
          have := List.all_eq_true.mp hall p hp
          rw [hbad] at this
          exact absurd this (by simp)

/-- C2: before any browser interaction, `validate_args` rejects an
empty-after-strip title, a title longer than 40 characters (concretely, a
41-character title), an empty-after-strip content, an empty image list,
a non-existing path, a non-file path, and an unsupported extension
(concretely, an existing `.bmp` file); it accepts a 40-character title
with non-empty content and an existing `.png` or `.jpg` file; and a
failed validation exits the CLI with code 1 before the browser stage. -/
theorem C2_validate_args_spec :
    (∀ (fs : FS) (content : String) (images : List String) (title : String),
        pyStrip title = "" → validate_args fs title content images = false) ∧
    (∀ (fs : FS) (content : String) (images : List String) (title : String),
        40 < title.length → validate_args fs title content images = false) ∧
    (validate_args demoFS title41 "内容" ["photo.png"] = false) ∧
    (∀ (fs : FS) (title : String) (images : List String) (content : String),
        pyStrip content = "" → validate_args fs title content images = false) ∧
    (∀ (fs : FS) (title content : String),
        validate_args fs title content [] = false) ∧
    (∀ (fs : FS) (title content : String) (images : List String) (p : String),
        p ∈ images → fs.pathExists p = false →
        validate_args fs title content images = false) ∧
    (∀ (fs : FS) (title content : String) (images : List String) (p : String),
        p ∈ images → fs.isFile p = false →
        validate_args fs title content images = false) ∧
    (∀ (fs : FS) (title content : String) (images : List String) (p : String),
        p ∈ images → supported_suffixes.contains (pyLower (pathSuffix p)) = false →
        validate_args fs title content images = false) ∧
    (validate_args demoFS "标题" "内容" ["x.bmp"] = false) ∧
    (title40.length = 40 ∧ validate_args demoFS title40 "内容" ["photo.png"] = true) ∧
    (validate_args demoFS "标题" "正文" ["b.jpg"] = true) ∧
    (∀ (fs : FS) (title content : String) (images : List String) (dryRun : Bool),
        validate_args fs title content images = false →
        main_async_gate fs title content images dryRun = CliGate.exitedEarly 1) := by
  refine ⟨?_, ?_, ?_, ?_, ?_, ?_, ?_, ?_, ?_, ?_, ?_, ?_⟩
  · intro fs content images title h
    simp [validate_args, h]
  · intro fs content images title h
    by_cases h1 : pyStrip title = "" <;> simp [validate_args, h1, h]
  · decide
  · intro fs title images content h
    by_cases h1 : pyStrip title = ""
    · simp [validate_args, h1]
    · by_cases h2 : title.length > 40 <;> simp [validate_args, h1, h2, h]
  · intro fs title content
    by_cases h1 : pyStrip title = ""
    · simp [validate_args, h1]
    · by_cases h2 : title.length > 40
      · simp [validate_args, h1, h2]
      · by_cases h3 : pyStrip content = "" <;> simp [validate_args, h1, h2, h3]
  · intro fs title content images p hp h
    exact validate_args_false_of_bad_image fs title content images p hp (by simp [h])
  · intro fs title content images p hp h
    exact validate_args_false_of_bad_image fs title content images p hp (by simp [h])
  · intro fs title content images p hp h
    exact validate_args_false_of_bad_image fs title content images p hp
      (by rw [h]; simp)
  · decide
  · exact ⟨by decide, by decide⟩
  · decide
  · intro fs title content images dryRun h
    simp [main_async_gate, h]

/-- C3: the detection chain returns true as soon as the primary indicator
matches, regardless of every later heuristic; each later heuristic fires
only when all earlier ones missed, in the fixed order 1-4, and the
exhausted chain returns false whatever the URL check would say. -/
theorem C3_login_detection_priority :
    (∀ page : LoginPage, page.query login_indicator = QRes.found →
        check_login_with_multiple_methods page = true) ∧
    (∀ page : LoginPage,
        user_indicators.any (fun ind => page.query ind = QRes.found) = true →
        check_login_with_multiple_methods page = true) ∧
    (∀ (page : LoginPage) (c : String), page.content = Except.ok c →
        login_keywords.any (fun k => strContains c k) = true →
        check_login_with_multiple_methods page = true) ∧
    (∀ page : LoginPage, page.query login_indicator ≠ QRes.found →
        user_indicators.any (fun ind => page.query ind = QRes.found) = false →
        (∀ c, page.content = Except.ok c →
          login_keywords.any (fun k => strContains c k) = false) →
        check_login_with_multiple_methods page = false) := by
  refine ⟨?_, ?_, ?_, ?_⟩
  · intro page h
    simp [check_login_with_multiple_methods, h]
  · intro page h
    by_cases h1 : page.query login_indicator = QRes.found <;>
      simp [check_login_with_multiple_methods, h1, h]
  · intro page c hc h
    by_cases h1 : page.query login_indicator = QRes.found
    · simp [check_login_with_multiple_methods, h1]
    · by_cases h2 : user_indicators.any (fun ind => page.query ind = QRes.found) = true <;>
        simp [check_login_with_multiple_methods, h1, h2, hc, h]
  · intro page h1 h2 h3
    unfold check_login_with_multiple_methods
    rw [if_neg h1]
    rw [h2]
    simp only [Bool.false_eq_true, if_false]
    have hcont : (match page.content with
        | Except.ok c => login_keywords.any (fun k => strContains c k)
        | Except.error _ => false) = false := by
      cases hc : page.content with
      | ok c => exact h3 c hc
      | error e => rfl
    rw [hcont]
    simp only [Bool.false_eq_true, if_false]
    cases page.url with
    | ok u => simp
    | error e => rfl

/-- C7: a raise during navigation (or the load-state wait) makes
`check_login_status` return false instead of propagating; a raise inside
an individual probe is a non-match and the chain continues (a raising
primary probe does not stop a later user-indicator match), and a page
whose every probe raises yields false, not an exception. -/
theorem C7_check_login_status_errors :
    (∀ env : LoginEnv, env.gotoErr ≠ none → check_login_status env = false) ∧
    (∀ env : LoginEnv, env.loadStateErr ≠ none → check_login_status env = false) ∧
    (∀ (page : LoginPage) (m : String),
        page.query login_indicator = QRes.raised m →
        user_indicators.any (fun ind => page.query ind = QRes.found) = true →
        check_login_with_multiple_methods page = true) ∧
    (∀ page : LoginPage,
        (∀ s, ∃ m, page.query s = QRes.raised m) →
        (∃ m, page.content = Except.error m) →
        (∃ m, page.url = Except.error m) →
        check_login_with_multiple_methods page = false) := by
  refine ⟨?_, ?_, ?_, ?_⟩
  · intro env h
    cases hg : env.gotoErr with
    | none => exact absurd hg h
    | some e => simp [check_login_status, hg]
  · intro env h
    cases hg : env.gotoErr with
    | some e => simp [check_login_status, hg]
    | none =>
      cases hl : env.loadStateErr with
      | none => exact absurd hl h
      | some e => simp [check_login_status, hg, hl]
  · intro page m hm h
    simp [check_login_with_multiple_methods, hm, h]
  · intro page hq hc hu
    obtain ⟨m0, hm0⟩ := hq login_indicator
    obtain ⟨mc, hmc⟩ := hc
    obtain ⟨mu, hmu⟩ := hu
    have hany : user_indicators.any (fun ind => page.query ind = QRes.found) = false := by
      refine Bool.eq_false_iff.mpr ?_
      intro hx
      obtain ⟨ind, _, hfound⟩ := List.any_eq_true.mp hx
      obtain ⟨mi, hmi⟩ := hq ind
      rw [hmi] at hfound
      simp at hfound
    simp [check_login_with_multiple_methods, hm0, hany, hmc, hmu]

/-- C4: when the inputs pass local image validation and navigation
succeeded, a file-input selector timeout (or a raise while setting the
files) aborts the publish flow at the upload stage: the result is false,
the reported failure is one of the upload-stage exceptions, and no title
fill, description fill or submit click is ever issued. -/
theorem C4_upload_stage_abort (env : PublishEnv) (t c : String)
    (imgs : List String)
    (hv : validate_images env.fs imgs = true)
    (hnav : (navigate_to_publish_page env).2 = Except.ok ())
    (hbad : (∃ m, env.uploadInputWait = Except.error (PyExc.timeoutErr m)) ∨
            env.setFilesRes ≠ none) :
    (publish_content env t c imgs).ok = false ∧
    (∃ e, (publish_content env t c imgs).err = some e ∧
      isUploadStageErr e = true) ∧
    (∀ s, PEv.fillTitle s ∉ (publish_content env t c imgs).events) ∧
    (∀ s, PEv.fillDescription s ∉ (publish_content env t c imgs).events) ∧
    PEv.clickSubmit ∉ (publish_content env t c imgs).events := by
  have hupErr : ∃ e, upload_images env imgs = ([], Except.error e) ∧
      isUploadStageErr e = true := by
    cases hw : env.uploadInputWait with
    | error e =>
      cases e with
      | timeoutErr m =>
        exact ⟨PErr.uploadInputTimeout, by simp [upload_images, hw], rfl⟩
      | otherErr m =>
        exact ⟨PErr.uploadFailed (PErr.engine (PyExc.otherErr m)),
          by simp [upload_images, hw], rfl⟩
    | ok u =>
      cases hsf : env.setFilesRes with
      | some e =>
        cases e with
        | timeoutErr m =>
          exact ⟨PErr.uploadInputTimeout, by simp [upload_images, hw, hsf], rfl⟩
        | otherErr m =>
          exact ⟨PErr.uploadFailed (PErr.engine (PyExc.otherErr m)),
            by simp [upload_images, hw, hsf], rfl⟩
      | none =>
        rcases hbad with ⟨m, hm⟩ | hs
        · rw [hw] at hm; exact absurd hm (by simp)
        · exact absurd hsf hs
  obtain ⟨e, hup, he⟩ := hupErr
  rcases hnav2 : navigate_to_publish_page env with ⟨evN, rN⟩
  rw [hnav2] at hnav
  simp at hnav
  subst hnav
  have hpub : publish_content env t c imgs =
      { ok := false, events := evN ++ [], err := some e } := by
    simp [publish_content, hv, hnav2, hup]
  rw [hpub]
  refine ⟨rfl, ⟨e, rfl, he⟩, ?_, ?_, ?_⟩
  · intro s hmem
    simp at hmem
    have := navigate_events_shape env (PEv.fillTitle s) (by rw [hnav2]; exact hmem)
    simp at this
  · intro s hmem
    simp at hmem
    have := navigate_events_shape env (PEv.fillDescription s) (by rw [hnav2]; exact hmem)
    simp at this
  · intro hmem
    simp at hmem
    have := navigate_events_shape env PEv.clickSubmit (by rw [hnav2]; exact hmem)
    simp at this

/-- Witness for C4: a concrete run whose `.upload-input` wait times out
after a successful navigation aborts at the upload stage with no fill or
submit interaction. -/
theorem C4_upload_stage_abort_witness :
    validate_images pubEnvUploadTimeout.fs ["photo.png"] = true ∧
    (navigate_to_publish_page pubEnvUploadTimeout).2 = Except.ok () ∧
    ((∃ m, pubEnvUploadTimeout.uploadInputWait =
        Except.error (PyExc.timeoutErr m)) ∨
      pubEnvUploadTimeout.setFilesRes ≠ none) ∧
    ((publish_content pubEnvUploadTimeout "标题" "内容" ["photo.png"]).ok = false ∧
     (∃ e, (publish_content pubEnvUploadTimeout "标题" "内容" ["photo.png"]).err =
        some e ∧ isUploadStageErr e = true) ∧
     (∀ s, PEv.fillTitle s ∉
        (publish_content pubEnvUploadTimeout "标题" "内容" ["photo.png"]).events) ∧
     (∀ s, PEv.fillDescription s ∉
        (publish_content pubEnvUploadTimeout "标题" "内容" ["photo.png"]).events) ∧
     PEv.clickSubmit ∉
        (publish_content pubEnvUploadTimeout "标题" "内容" ["photo.png"]).events) :=
  ⟨by decide, rfl, Or.inl ⟨"Timeout 10000ms exceeded", rfl⟩,
   C4_upload_stage_abort pubEnvUploadTimeout "标题" "内容" ["photo.png"]
     (by decide) rfl (Or.inl ⟨"Timeout 10000ms exceeded", rfl⟩)⟩

/-- C8: the editor-readiness wait is a bounded poll — whenever it returns
normally it ran at most 15 iterations, and a page that never matches
(with succeeding secondary-signal reads that stay file-input-only)
exhausts exactly the 15 iterations and still returns normally: that is
not a failure, the upload stage succeeds and the flow proceeds to the
field-fill stage, any remaining failure being a fill- or submit-stage
exception.  A raise from the unguarded secondary-signal reads
(publish.py lines 211-215), by contrast, surfaces as an upload-stage
failure. -/
theorem C8_wait_bounded_nonfatal :
    (∀ (env : PublishEnv) (n : Nat),
        wait_for_upload_complete env = Except.ok n → n ≤ 15) ∧
    (∀ (env : PublishEnv) (imgs : List String),
        env.uploadInputWait = Except.ok () → env.setFilesRes = none →
        (∃ n, wait_for_upload_complete env = Except.ok n) →
        (upload_images env imgs).2 = Except.ok ()) ∧
    (∀ env : PublishEnv,
        (∀ i, iterIndicatorHit (env.iters i) = false ∧
              ∃ types, (env.iters i).inputsRead = Except.ok types ∧
                fileInputsOnly types = true) →
        wait_for_upload_complete env = Except.ok 15) ∧
    (∀ (env : PublishEnv) (imgs : List String) (e : PyExc),
        env.uploadInputWait = Except.ok () → env.setFilesRes = none →
        wait_for_upload_complete env = Except.error e →
        ∃ e2, (upload_images env imgs).2 = Except.error e2 ∧
          isUploadStageErr e2 = true) ∧
    (∀ (env : PublishEnv) (t c : String) (imgs : List String),
        validate_images env.fs imgs = true →
        (navigate_to_publish_page env).2 = Except.ok () →
        env.uploadInputWait = Except.ok () → env.setFilesRes = none →
        (∃ n, wait_for_upload_complete env = Except.ok n) →
        ((publish_content env t c imgs).ok = true ∨
          ∃ e, (publish_content env t c imgs).err = some e ∧
            isFillOrSubmitErr e = true)) := by
  refine ⟨?_, ?_, ?_, ?_, ?_⟩
  · intro env n h
    have := waitLoop_le env 15 0 n
    simp [wait_for_upload_complete] at h
    exact this h
  · intro env imgs h1 h2 hwk
    obtain ⟨n, hn⟩ := hwk
    simp [upload_images, h1, h2, hn]
  · intro env hq
    have := waitLoop_exhausts env hq 15 0
    simpa [wait_for_upload_complete] using this
  · intro env imgs e h1 h2 he
    cases e with
    | timeoutErr m =>
      exact ⟨PErr.uploadInputTimeout, by simp [upload_images, h1, h2, he], rfl⟩
    | otherErr m =>
      exact ⟨PErr.uploadFailed (PErr.engine (PyExc.otherErr m)),
        by simp [upload_images, h1, h2, he], rfl⟩
  · intro env t c imgs hv hnav hw hsf hwk
    obtain ⟨n, hn⟩ := hwk
    have hup : upload_images env imgs =
        ([PEv.setInputFiles imgs], Except.ok ()) := by
      simp [upload_images, hw, hsf, hn]
    rcases hnav2 : navigate_to_publish_page env with ⟨evN, rN⟩
    rw [hnav2] at hnav
    simp at hnav
    subst hnav
    rcases hfc : fill_content env t c with ⟨evF, rF⟩
    cases rF with
    | error eF =>
      right
      refine ⟨eF, ?_, ?_⟩
      · simp [publish_content, hv, hnav2, hup, hfc]
      · obtain ⟨i, hi⟩ := fill_content_err_shape env t c eF (by rw [hfc])
        subst hi
        rfl
    | ok u =>
      cases u
      rcases hsb : submit_publish env with ⟨evS, rS⟩
      cases rS with
      | error eS =>
        right
        refine ⟨eS, ?_, ?_⟩
        · simp [publish_content, hv, hnav2, hup, hfc, hsb]
        · rcases submit_err_shape env eS (by rw [hsb]) with h | ⟨i, hi⟩
          · subst h; rfl
          · subst hi; rfl
      | ok u2 =>
        cases u2
        left
        simp [publish_content, hv, hnav2, hup, hfc, hsb]

/-- C9: `publish_content` is total at its boundary — its outer except
collapses every stage exception to the return value false (the caught
exception being only logged), and it returns true exactly when the local
validation and all four browser stages completed without raising. -/
theorem C9_publish_content_totality :
    ∀ (env : PublishEnv) (t c : String) (imgs : List String),
      ((publish_content env t c imgs).ok = true ↔
        (validate_images env.fs imgs = true ∧
         (navigate_to_publish_page env).2 = Except.ok () ∧
         (upload_images env imgs).2 = Except.ok () ∧
         (fill_content env t c).2 = Except.ok () ∧
         (submit_publish env).2 = Except.ok ())) ∧
      ((publish_content env t c imgs).err ≠ none →
        (publish_content env t c imgs).ok = false) := by
  intro env t c imgs
  rcases hnav : navigate_to_publish_page env with ⟨evN, rN⟩
  rcases hup : upload_images env imgs with ⟨evU, rU⟩
  rcases hfc : fill_content env t c with ⟨evF, rF⟩
  rcases hsb : submit_publish env with ⟨evS, rS⟩
  cases hv : validate_images env.fs imgs <;>
    cases rN <;> cases rU <;> cases rF <;> cases rS <;>
      simp [publish_content, hnav, hup, hfc, hsb, hv]

end XhsMcp
